import Mathlib

/-!
Shallow embedding of the CCDC blue-team scoring engine
(`scoring_engine/{checks,config,app,database}.py`).

Network and database I/O is modelled by explicit oracles: each checker is a
pure function of the outcome its socket/library calls would produce, and the
scheduler takes the persistence outcome as an `Except`-valued oracle.
Byte strings are `List Nat` (each entry a byte value), Python `str` is `String`.
-/

set_option maxRecDepth 10000

namespace ScoringEngine

/-- The Unicode replacement character U+FFFD, produced by Python's
`errors="replace"` decoding. -/
def replChar : Char := Char.ofNat 0xfffd

/-- A single quote character, used in Python diagnostic messages. -/
def squote : String := String.mk [Char.ofNat 39]

/-- Model of `bytes.decode("ascii", errors="replace")`: bytes ≥ 0x80 become U+FFFD. -/
def asciiDecodeReplace (bs : List Nat) : List Char :=
  bs.map (fun b => if b ≤ 0x7f then Char.ofNat b else replChar)

/-- Is `b` a UTF-8 continuation byte (0x80–0xBF)? -/
def utf8Cont (b : Nat) : Bool := 0x80 ≤ b && b ≤ 0xbf

/-- Valid range of the second byte of a multi-byte UTF-8 sequence with lead
byte `lead` (per the constrained ranges for 0xE0/0xED/0xF0/0xF4). -/
def utf8Second (lead b : Nat) : Bool :=
  if lead = 0xe0 then 0xa0 ≤ b && b ≤ 0xbf
  else if lead = 0xed then 0x80 ≤ b && b ≤ 0x9f
  else if lead = 0xf0 then 0x90 ≤ b && b ≤ 0xbf
  else if lead = 0xf4 then 0x80 ≤ b && b ≤ 0x8f
  else utf8Cont b

/-- Model of `bytes.decode("utf-8", errors="replace")`: CPython replaces each maximal
invalid subpart with one U+FFFD and decodes valid sequences normally. -/
def utf8DecodeReplace : List Nat → List Char
  | [] => []
  | b :: rest =>
    if b ≤ 0x7f then Char.ofNat b :: utf8DecodeReplace rest
    else if 0xc2 ≤ b && b ≤ 0xdf then
      match rest with
      | [] => [replChar]
      | c :: r =>
        if utf8Cont c then
          Char.ofNat ((b % 0x20) * 0x40 + c % 0x40) :: utf8DecodeReplace r
        else replChar :: utf8DecodeReplace (c :: r)
    else if 0xe0 ≤ b && b ≤ 0xef then
      match rest with
      | [] => [replChar]
      | c :: r =>
        if utf8Second b c then
          match r with
          | [] => [replChar]
          | d :: r2 =>
            if utf8Cont d then
              Char.ofNat ((b % 0x10) * 0x1000 + (c % 0x40) * 0x40 + d % 0x40) ::
                utf8DecodeReplace r2
            else replChar :: utf8DecodeReplace (d :: r2)
        else replChar :: utf8DecodeReplace (c :: r)
    else if 0xf0 ≤ b && b ≤ 0xf4 then
      match rest with
      | [] => [replChar]
      | c :: r =>
        if utf8Second b c then
          match r with
          | [] => [replChar]
          | d :: r2 =>
            if utf8Cont d then
              match r2 with
              | [] => [replChar]
              | e2 :: r3 =>
                if utf8Cont e2 then
                  Char.ofNat ((b % 8) * 0x40000 + (c % 0x40) * 0x1000 +
                      (d % 0x40) * 0x40 + e2 % 0x40) :: utf8DecodeReplace r3
                else replChar :: utf8DecodeReplace (e2 :: r3)
            else replChar :: utf8DecodeReplace (d :: r2)
        else replChar :: utf8DecodeReplace (c :: r)
    else replChar :: utf8DecodeReplace rest

/-- UTF-8 encoding of one character (`str.encode()` per code point). -/
def utf8EncodeChar (c : Char) : List Nat :=
  let n := c.toNat
  if n ≤ 0x7f then [n]
  else if n ≤ 0x7ff then [0xc0 + n / 0x40, 0x80 + n % 0x40]
  else if n ≤ 0xffff then
    [0xe0 + n / 0x1000, 0x80 + (n / 0x40) % 0x40, 0x80 + n % 0x40]
  else
    [0xf0 + n / 0x40000, 0x80 + (n / 0x1000) % 0x40, 0x80 + (n / 0x40) % 0x40,
      0x80 + n % 0x40]

/-- Model of `str.encode()`: UTF-8 bytes of a character list. -/
def utf8EncodeChars (cs : List Char) : List Nat :=
  (cs.map utf8EncodeChar).flatten

/-- Model of `str.encode()`: UTF-8 bytes of a string. -/
def utf8Encode (s : String) : List Nat :=
  utf8EncodeChars s.data

/-- Python `query.split(".")` on the character list of a string. -/
def splitOnDot : List Char → List (List Char)
  | [] => [[]]
  | c :: rest =>
    match splitOnDot rest with
    | [] => [[c]]
    | g :: gs => if c = '.' then [] :: g :: gs else (c :: g) :: gs

/-- Characters Python's `str.strip()` removes (Unicode whitespace). -/
def pyWhitespace (c : Char) : Bool :=
  ([9, 10, 11, 12, 13, 28, 29, 30, 31, 32, 0x85, 0xa0, 0x1680, 0x2000, 0x2001,
    0x2002, 0x2003, 0x2004, 0x2005, 0x2006, 0x2007, 0x2008, 0x2009, 0x200a,
    0x2028, 0x2029, 0x202f, 0x205f, 0x3000] : List Nat).contains c.toNat

/-- Python `str.strip()`: drop whitespace from both ends. -/
def pyStrip (l : List Char) : List Char :=
  ((l.dropWhile pyWhitespace).reverse.dropWhile pyWhitespace).reverse

/-- Does `hay` start with `needle`? (helper for substring containment). -/
def prefixMatch : List Char → List Char → Bool
  | [], _ => true
  | _ :: _, [] => false
  | a :: as, b :: bs => a == b && prefixMatch as bs

/-- Python's `needle in hay` substring test on strings. -/
def containsSub (hay needle : List Char) : Bool :=
  match hay with
  | [] => needle.isEmpty
  | _ :: t => prefixMatch needle hay || containsSub t needle

/-- Python slice `s[:n]` on a string (by code point). -/
def strTake (n : Nat) (s : String) : String := String.mk (s.data.take n)

/-- Python `f"{n:02x}"`: lowercase hex, zero-padded to at least two digits. -/
def hexByte2 (n : Nat) : String :=
  if n < 16 then String.mk ('0' :: Nat.toDigits 16 n)
  else String.mk (Nat.toDigits 16 n)

/-- Python `sep.join(xs)`. -/
def joinWith (sep : String) : List String → String
  | [] => ""
  | [s] => s
  | s :: rest => s ++ sep ++ joinWith sep rest

/-- Python `f"{xs}"` for a list of strings (repr with single quotes). -/
def pyStrListRepr (xs : List String) : String :=
  "[" ++ joinWith ", " (xs.map (fun s => squote ++ s ++ squote)) ++ "]"

/-- Python truthiness of an optional string (`None` and `""` are falsy). -/
def optTruthy : Option String → Bool
  | none => false
  | some s => !s.isEmpty

/-- Model of `bytes.index(b"\x00")`: index of the first zero byte, if any
(applied after `drop` to model a start offset). -/
def byteIndexOfZero : List Nat → Option Nat
  | [] => none
  | b :: t => if b = 0 then some 0 else (byteIndexOfZero t).map (· + 1)

/-- ASCII bytes of a string (test helper for concrete banners/handshakes). -/
def asciiBytes (s : String) : List Nat := s.data.map Char.toNat

/-!
## Network oracles

Each checker's socket / stdlib interaction is abstracted into an inductive of
the possible outcomes the Python `try`-blocks distinguish. A `NetEnv` bundles
one oracle per checker, keyed by the arguments the code passes to the call.
-/

/-- Outcome of `socket.create_connection` in `check_tcp`. -/
inductive TcpOutcome
  | ok
  | timeout
  | refused
  | oserr (s : String)
deriving DecidableEq

/-- Outcome of `urllib.request.urlopen` + `resp.read(512)` in `check_http`:
either a status and (truncated) body, or one of the caught exceptions. -/
inductive HttpOutcome
  | ok (status : Nat) (body : List Nat)
  | httpErr (code : Nat) (reason : String)
  | urlErr (reason : String)
  | exc (s : String)
deriving DecidableEq

/-- Outcome of `ftp.login("anonymous", ...)` in `check_ftp`. -/
inductive FtpLogin
  | ok
  | permErr (s : String)
deriving DecidableEq

/-- Outcome of the FTP connect + `getwelcome` in `check_ftp`. -/
inductive FtpConn
  | ok (banner : String) (login : FtpLogin)
  | ftpErr (s : String)
  | exc (s : String)
deriving DecidableEq

/-- Outcome of `smtp.ehlo(...)` in `check_smtp`: either the server accepts the
EHLO exchange (the call returns), or it raises an `SMTPException` or another
exception. -/
inductive SmtpEhlo
  | accepted
  | smtpErr (s : String)
  | otherErr (s : String)
deriving DecidableEq

/-- Outcome of `smtp.connect(host, port)` in `check_smtp`: the greeting code
and raw banner bytes (with the subsequent EHLO outcome), or an exception. -/
inductive SmtpConn
  | ok (code : Nat) (banner : List Nat) (ehlo : SmtpEhlo)
  | smtpErr (s : String)
  | otherErr (s : String)
deriving DecidableEq

/-- Outcome of connect + `recv` in `check_banner` / `check_mysql`. -/
inductive RecvOutcome
  | ok (raw : List Nat)
  | timeout
  | refused
  | exc (s : String)
deriving DecidableEq

/-- Outcome of `resolver.resolve(query, "A")` in `_dns_dnspython`:
the resolved IP strings, or an exception message. -/
inductive DnsResolveOutcome
  | ok (ips : List String)
  | exc (s : String)
deriving DecidableEq

/-- Outcome of `sendto` + `recvfrom(512)` in `_dns_raw_udp`. -/
inductive UdpOutcome
  | ok (resp : List Nat)
  | timeout
  | exc (s : String)
deriving DecidableEq

/-- The network oracle: what each socket/library interaction would yield,
as a function of the arguments the Python code passes to it. -/
structure NetEnv where
  tcp : String → Nat → TcpOutcome
  http : String → Nat → HttpOutcome
  ftp : String → Nat → FtpConn
  smtp : String → Nat → SmtpConn
  banner : String → Nat → RecvOutcome
  mysql : String → Nat → RecvOutcome
  hasDnspython : Bool
  resolve : String → String → DnsResolveOutcome
  udp : String → Nat → List Nat → UdpOutcome

/-!
## Checkers (`scoring_engine/checks.py`)
-/

/-- Model of `check_tcp(host, port)`. -/
def check_tcp (env : NetEnv) (host : String) (port : Nat) : Bool × String :=
  match env.tcp host port with
  | .ok => (true, "Port open")
  | .timeout => (false, "Connection timed out")
  | .refused => (false, "Connection refused")
  | .oserr s => (false, s)

/-- Model of `check_http(host, port)`. -/
def check_http (env : NetEnv) (host : String) (port : Nat) : Bool × String :=
  match env.http host port with
  | .ok status body =>
    if status = 200 && 0 < body.length then
      (true, "HTTP 200 OK (" ++ toString body.length ++ "+ bytes)")
    else (false, "HTTP " ++ toString status ++ " — unexpected response")
  | .httpErr code reason => (false, "HTTP " ++ toString code ++ ": " ++ reason)
  | .urlErr reason => (false, "URL error: " ++ reason)
  | .exc s => (false, s)

/-- Model of `check_ftp(host, port)`. -/
def check_ftp (env : NetEnv) (host : String) (port : Nat) : Bool × String :=
  match env.ftp host port with
  | .ok banner login =>
    match login with
    | .ok => (true, "Anonymous login OK | " ++ strTake 60 banner)
    | .permErr _ => (true, "Service UP (anonymous denied) | " ++ strTake 60 banner)
  | .ftpErr s => (false, "FTP error: " ++ s)
  | .exc s => (false, s)

/-- The body of `check_smtp` as a function of the connect outcome. -/
def smtpVerdict (conn : SmtpConn) : Bool × String :=
  match conn with
  | .ok code banner eh =>
    if code ≠ 220 then (false, "Expected 220, got " ++ toString code)
    else
      match eh with
      | .accepted =>
        (true, "EHLO accepted | " ++ strTake 60 (String.mk (utf8DecodeReplace banner)))
      | .smtpErr s => (false, "SMTP error: " ++ s)
      | .otherErr s => (false, s)
  | .smtpErr s => (false, "SMTP error: " ++ s)
  | .otherErr s => (false, s)

/-- Model of `check_smtp(host, port)`. -/
def check_smtp (env : NetEnv) (host : String) (port : Nat) : Bool × String :=
  smtpVerdict (env.smtp host port)

/-- The decoded, stripped greeting in `check_banner`:
`raw.decode("utf-8", errors="replace").strip()`. -/
def bannerDecode (raw : List Nat) : String :=
  String.mk (pyStrip (utf8DecodeReplace raw))

/-- The body of `check_banner` after a successful `recv`. -/
def bannerVerdict (raw : List Nat) (expected : Option String) : Bool × String :=
  let banner := bannerDecode raw
  if optTruthy expected && !containsSub banner.data (expected.getD "").data then
    (false, "Banner missing " ++ squote ++ expected.getD "" ++ squote ++ ": " ++
      strTake 80 banner)
  else (true, "Banner: " ++ strTake 80 banner)

/-- Model of `check_banner(host, port, expected)`. -/
def check_banner (env : NetEnv) (host : String) (port : Nat)
    (expected : Option String) : Bool × String :=
  match env.banner host port with
  | .ok raw => bannerVerdict raw expected
  | .timeout => (false, "Connection timed out")
  | .refused => (false, "Connection refused")
  | .exc s => (false, s)

/-- The handshake-parsing body of `check_mysql` after a successful
`recv(256)`: length check, protocol byte at offset 4, version extraction. -/
def mysqlParseHandshake (data : List Nat) : Bool × String :=
  if data.length < 5 then (false, "Incomplete handshake")
  else
    let proto := data.getD 4 0
    if proto = 0x0a then
      match byteIndexOfZero (data.drop 5) with
      | some k =>
        (true, "MySQL/MariaDB " ++ String.mk (asciiDecodeReplace ((data.drop 5).take k)))
      | none => (true, "MySQL handshake OK (version unreadable)")
    else if proto = 0xff then
      (false, "MySQL error: " ++ strTake 60 (String.mk (utf8DecodeReplace (data.drop 7))))
    else (true, "DB port open (proto byte=0x" ++ hexByte2 proto ++ ")")

/-- Model of `check_mysql(host, port)`. -/
def check_mysql (env : NetEnv) (host : String) (port : Nat) : Bool × String :=
  match env.mysql host port with
  | .ok data => mysqlParseHandshake data
  | .timeout => (false, "Connection timed out")
  | .refused => (false, "Connection refused")
  | .exc s => (false, s)

/-- Model of `_dns_dnspython(host, query, expected_ip)`. -/
def dns_dnspython (env : NetEnv) (host query : String)
    (expected_ip : Option String) : Bool × String :=
  match env.resolve host query with
  | .exc e => (false, "DNS query failed: " ++ e)
  | .ok ips =>
    if optTruthy expected_ip && !ips.contains (expected_ip.getD "") then
      (false, "Expected " ++ expected_ip.getD "" ++ ", got " ++ pyStrListRepr ips)
    else (true, "Resolved " ++ query ++ " → " ++ joinWith ", " ips)

/-- QNAME encoding in `_dns_raw_udp`: length-prefixed labels, zero-terminated. -/
def dnsQname (query : String) : List Nat :=
  (((splitOnDot query.data).map
      (fun label => (utf8EncodeChars label).length :: utf8EncodeChars label)).flatten) ++ [0]

/-- Model of `bytes([len(encoded)])` raises `ValueError` for labels of 256+ bytes;
the generic handler would turn that into a raw-query-error verdict. -/
def dnsLabelsOk (query : String) : Bool :=
  (splitOnDot query.data).all (fun label => (utf8EncodeChars label).length < 256)

/-- The full query packet built in `_dns_raw_udp`: fixed header
(txn id 0xABCD, flags 0x0100, QDCOUNT 1), QNAME, QTYPE A, QCLASS IN. -/
def dnsPacket (query : String) : List Nat :=
  [0xab, 0xcd, 0x01, 0x00, 0x00, 0x01, 0x00, 0x00, 0x00, 0x00, 0x00, 0x00] ++
    dnsQname query ++ [0x00, 0x01, 0x00, 0x01]

/-- Model of `_dns_raw_udp(host, query, expected_ip)`: sends the hand-built packet to
`(host, 53)` and classifies the response by the RCODE nibble of byte 3.
`expected_ip` is accepted but never consulted. -/
def dns_raw_udp (env : NetEnv) (host query : String)
    (expected_ip : Option String) : Bool × String :=
  if !dnsLabelsOk query then
    (false, "DNS raw query error: bytes must be in range(0, 256)")
  else
    match env.udp host 53 (dnsPacket query) with
    | .timeout => (false, "DNS query timed out")
    | .exc s => (false, "DNS raw query error: " ++ s)
    | .ok resp =>
      if resp.length < 12 then (false, "Short DNS response")
      else
        let rcode := resp.getD 3 0 % 16
        if rcode = 0 then (true, "DNS query OK (NOERROR) for " ++ query)
        else (false, "DNS RCODE " ++ toString rcode ++ " for " ++ query)

/-- Model of `check_dns(host, query, expected_ip)`: dnspython path when available,
raw-UDP fallback otherwise. -/
def check_dns (env : NetEnv) (host query : String)
    (expected_ip : Option String) : Bool × String :=
  if env.hasDnspython then dns_dnspython env host query expected_ip
  else dns_raw_udp env host query expected_ip

/-!
## Service definitions (`scoring_engine/config.py`) and dispatcher
-/

/-- One entry of `config.SERVICES`. Optional keys absent from a service dict
are `none`. -/
structure Service where
  id : String
  name : String
  machine : String
  host : String
  port : Nat
  points : Nat
  check_type : String
  banner_expect : Option String := none
  dns_query : Option String := none
  dns_expected_ip : Option String := none
deriving DecidableEq

/-- Model of `run_check(service)`: dispatch on `check_type`; unknown types report down. -/
def run_check (env : NetEnv) (service : Service) : Bool × String :=
  let ctype := service.check_type
  let host := service.host
  let port := service.port
  if ctype = "tcp" then check_tcp env host port
  else if ctype = "http" then check_http env host port
  else if ctype = "ftp" then check_ftp env host port
  else if ctype = "smtp" then check_smtp env host port
  else if ctype = "banner" then check_banner env host port service.banner_expect
  else if ctype = "mysql" then check_mysql env host port
  else if ctype = "dns" then
    check_dns env host (service.dns_query.getD "ludus.domain") service.dns_expected_ip
  else (false, "Unknown check type: " ++ ctype)

/-- Model of `config._build_services()` / `config.SERVICES`, parameterised by the
auto-detected `BASE_NET` string `n` (`f"10.{RANGE_ID}.10"`). -/
def SERVICES (n : String) : List Service :=
  [ { id := "http", name := "HTTP Web Server", machine := "WEB01",
      host := n ++ ".31", port := 80, points := 100, check_type := "http" },
    { id := "ftp", name := "FTP Server", machine := "FTP01",
      host := n ++ ".81", port := 21, points := 50, check_type := "ftp" },
    { id := "smtp", name := "SMTP (Mail)", machine := "MAIL01",
      host := n ++ ".61", port := 25, points := 75, check_type := "smtp" },
    { id := "imap", name := "IMAP (Mail)", machine := "MAIL01",
      host := n ++ ".61", port := 143, points := 50, check_type := "banner",
      banner_expect := some "* OK" },
    { id := "pop3", name := "POP3 (Mail)", machine := "MAIL01",
      host := n ++ ".61", port := 110, points := 50, check_type := "banner",
      banner_expect := some "+OK" },
    { id := "dns", name := "DNS Server", machine := "DNS01",
      host := n ++ ".71", port := 53, points := 100, check_type := "dns",
      dns_query := some "web.ludus.domain", dns_expected_ip := some (n ++ ".31") },
    { id := "mysql", name := "MySQL Database", machine := "DB01",
      host := n ++ ".41", port := 3306, points := 75, check_type := "mysql" },
    { id := "smb", name := "SMB File Share", machine := "FILESVR",
      host := n ++ ".51", port := 445, points := 50, check_type := "tcp" },
    { id := "ldap", name := "LDAP (Active Directory)", machine := "DC01",
      host := n ++ ".11", port := 389, points := 100, check_type := "tcp" },
    { id := "kerberos", name := "Kerberos (Active Directory)", machine := "DC01",
      host := n ++ ".11", port := 88, points := 100, check_type := "tcp" } ]

/-- Model of `config.MAX_SCORE_PER_ROUND = sum(s["points"] for s in SERVICES)`,
computed once at startup from the service list. -/
def MAX_SCORE_PER_ROUND (n : String) : Nat :=
  ((SERVICES n).map (fun s => s.points)).sum

/-!
## Round execution and scheduler (`scoring_engine/app.py`)

`_run_one_round` iterates the configured services, wrapping each
`checks.run_check(svc)` call in `try/except`. The possibly-raising call is
modelled as an oracle `check : Service → Except String (Bool × String)`,
where `.error e` stands for an exception with text `e`; running the real
dispatcher without a fault is `fun svc => .ok (run_check env svc)`.
-/

/-- One row of the per-service result list built by `_run_one_round`. -/
structure SvcResult where
  service_id : String
  up : Bool
  points_earned : Nat
  message : String
deriving DecidableEq

/-- The body of `_run_one_round`'s loop for one service: catch an exception
from `run_check`, award points, and build the result dict. -/
def svcRoundResult (check : Service → Except String (Bool × String))
    (svc : Service) : SvcResult :=
  let r := match check svc with
    | .ok p => p
    | .error e => (false, "Check exception: " ++ e)
  let pts := if r.1 then svc.points else 0
  { service_id := svc.id, up := r.1, points_earned := pts, message := r.2 }

/-- The result-accumulating loop of `_run_one_round`: appends each service's
result in order and adds its points to the running score. -/
def run_one_round_core (services : List Service)
    (check : Service → Except String (Bool × String)) : List SvcResult × Nat :=
  services.foldl
    (fun acc svc =>
      let r := match check svc with
        | .ok p => p
        | .error e => (false, "Check exception: " ++ e)
      let pts := if r.1 then svc.points else 0
      (acc.1 ++ [SvcResult.mk svc.id r.1 pts r.2], acc.2 + pts))
    ([], 0)

/-- The shared `_state` dict mutated under `_lock`. -/
structure EngineState where
  last_check_time : Option String
  next_check_in : Nat
  current_results : List (String × SvcResult)
  round_score : Nat
  is_checking : Bool
deriving DecidableEq

/-- The initial `_state` value at module load. -/
def initState : EngineState :=
  { last_check_time := none, next_check_in := 0, current_results := [],
    round_score := 0, is_checking := false }

/-- Oracles for one scheduler round: the (possibly raising) check calls, the
outcome of `database.save_round`, and the wall-clock string `datetime.now()`
formats. -/
structure RoundEnv where
  check : Service → Except String (Bool × String)
  save : List SvcResult → Nat → Nat → Except String Unit
  now : String

/-- Model of `_run_one_round()`: run all checks, then `database.save_round(...)`, then
publish the snapshot under the lock. An exception from `save_round` propagates
(`.error`), in which case the publish block is never reached. -/
def run_one_round_app (services : List Service) (re : RoundEnv)
    (maxScore : Nat) (st : EngineState) : Except String EngineState :=
  let rr := run_one_round_core services re.check
  match re.save rr.1 rr.2 maxScore with
  | .error e => .error e
  | .ok _ =>
    .ok { st with
      last_check_time := some re.now,
      round_score := rr.2,
      current_results := rr.1.map (fun r => (r.service_id, r)),
      is_checking := false }

/-- One `_scheduler_loop` iteration up to the countdown: set the in-progress
flag, call `_run_one_round`, and on an unhandled exception log it and clear
the flag, leaving the rest of the state as it was. -/
def scheduler_round (services : List Service) (maxScore : Nat) (re : RoundEnv)
    (st : EngineState) : EngineState :=
  let st1 := { st with is_checking := true }
  match run_one_round_app services re maxScore st1 with
  | .ok st2 => st2
  | .error _ => { st1 with is_checking := false }

/-- Model of `_scheduler_loop` over a finite schedule of rounds: each iteration runs
`scheduler_round` and then counts `next_check_in` down to 0. -/
def scheduler_loop (services : List Service) (maxScore : Nat)
    (rounds : List RoundEnv) (st : EngineState) : EngineState :=
  rounds.foldl
    (fun s re => { scheduler_round services maxScore re s with next_check_in := 0 })
    st

/-!
## Result log queries (`scoring_engine/database.py`)

The `check_rounds` table is modelled as the append-ordered list of saved round
headers: `save_round` appends one row, and the AUTOINCREMENT `id` column
increases with append order, so `ORDER BY id DESC` is list reversal and
`LIMIT n` is `take n`.
-/

/-- One row of `check_rounds` (the header `save_round` inserts). -/
structure RoundRow where
  timestamp : String
  round_score : Nat
  max_score : Nat
deriving DecidableEq

/-- The header row `save_round(results, round_score, max_score)` appends. -/
def save_round_header (log : List RoundRow) (row : RoundRow) : List RoundRow :=
  log ++ [row]

/-- Model of `get_recent_rounds(limit)`:
`SELECT * FROM check_rounds ORDER BY id DESC LIMIT ?`. -/
def get_recent_rounds (log : List RoundRow) (limit : Nat) : List RoundRow :=
  (log.reverse).take limit

/-- The `(timestamp, round_score, max_score)` projection selected by
`get_score_history`. -/
def scoreHistoryRow (r : RoundRow) : String × Nat × Nat :=
  (r.timestamp, r.round_score, r.max_score)

/-- Model of `get_score_history(limit)`: same `ORDER BY id DESC LIMIT ?` query on the
three score columns, then `list(reversed(...))`. -/
def get_score_history (log : List RoundRow) (limit : Nat) :
    List (String × Nat × Nat) :=
  (((log.reverse).take limit).map scoreHistoryRow).reverse

/-!
## Supporting lemmas
-/

/-- The accumulator-passing loop of `_run_one_round` computes, for any
starting accumulator, the mapped per-service results and the summed points. -/
theorem run_one_round_foldl (check : Service → Except String (Bool × String)) :
    ∀ (services : List Service) (acc : List SvcResult × Nat),
      services.foldl
        (fun acc svc =>
          let r := match check svc with
            | .ok p => p
            | .error e => (false, "Check exception: " ++ e)
          let pts := if r.1 then svc.points else 0
          (acc.1 ++ [SvcResult.mk svc.id r.1 pts r.2], acc.2 + pts)) acc
      = (acc.1 ++ services.map (svcRoundResult check),
         acc.2 + (services.map (fun s => (svcRoundResult check s).points_earned)).sum) := by
  intro services
  induction services with
  | nil => intro acc; simp
  | cons svc rest ih =>
    intro acc
    simp only [List.foldl_cons, List.map_cons, List.sum_cons, ih, svcRoundResult,
      List.append_assoc, List.singleton_append, Prod.mk.injEq]
    constructor
    · trivial
    · omega

/-- Model of `_run_one_round`'s loop, characterised: the result list is the map of the
per-service body over the configuration, and the score is the points sum. -/
theorem run_one_round_core_eq (services : List Service)
    (check : Service → Except String (Bool × String)) :
    run_one_round_core services check
      = (services.map (svcRoundResult check),
         (services.map (fun s => (svcRoundResult check s).points_earned)).sum) := by
  unfold run_one_round_core
  rw [run_one_round_foldl]
  simp

/-- Model of `byteIndexOfZero` finds nothing exactly when no zero byte is present. -/
theorem byteIndexOfZero_eq_none (l : List Nat) :
    byteIndexOfZero l = none ↔ l.contains 0 = false := by
  induction l with
  | nil => simp [byteIndexOfZero]
  | cons b t ih =>
    by_cases hb : b = 0
    · subst hb; simp [byteIndexOfZero]
    · simp [byteIndexOfZero, hb, ih, Ne.symm hb]

/-- When `byteIndexOfZero` finds index `k`, the prefix before it is exactly
the longest zero-free prefix. -/
theorem byteIndexOfZero_take (l : List Nat) :
    ∀ k, byteIndexOfZero l = some k → l.take k = l.takeWhile (fun b => b != 0) := by
  induction l with
  | nil => intro k h; simp [byteIndexOfZero] at h
  | cons b t ih =>
    intro k h
    by_cases hb : b = 0
    · subst hb
      simp [byteIndexOfZero] at h
      subst h
      simp [List.takeWhile_cons]
    · simp [byteIndexOfZero, hb] at h
      obtain ⟨k', hk', rfl⟩ := h
      have hb' : (b != 0) = true := by simp [hb]
      simp [List.take_succ_cons, List.takeWhile_cons, hb', ih k' hk']

/-- The empty needle is a substring of every haystack (Python `"" in s`). -/
theorem containsSub_nil (hay : List Char) : containsSub hay [] = true := by
  induction hay with
  | nil => simp [containsSub, List.isEmpty]
  | cons c t ih => simp [containsSub, prefixMatch, ih]

/-!
## Claims
-/

/-- Claim C3. For every round over any configured service list, the round score
is the sum of `points_earned` over the per-service results; each service's
`points_earned` is 0 or exactly its configured point value, matching its `up`
verdict; the score never exceeds the sum of configured point values; and
`MAX_SCORE_PER_ROUND` is that sum (750 for every base network string, hence
constant for the process lifetime). -/
theorem claim_C3_round_score :
    ∀ (services : List Service) (check : Service → Except String (Bool × String)),
      (run_one_round_core services check).2
        = (((run_one_round_core services check).1).map
            (fun r => r.points_earned)).sum
      ∧ (∀ svc, (svcRoundResult check svc).points_earned = 0 ∨
          (svcRoundResult check svc).points_earned = svc.points)
      ∧ (∀ svc, (svcRoundResult check svc).points_earned
          = if (svcRoundResult check svc).up then svc.points else 0)
      ∧ (run_one_round_core services check).2
          ≤ (services.map (fun s => s.points)).sum
      ∧ (∀ n : String,
          MAX_SCORE_PER_ROUND n = ((SERVICES n).map (fun s => s.points)).sum
          ∧ MAX_SCORE_PER_ROUND n = 750
          ∧ (run_one_round_core (SERVICES n) check).2 ≤ MAX_SCORE_PER_ROUND n) := by
  intro services check
  have hpts : ∀ svc : Service, (svcRoundResult check svc).points_earned
      = if (svcRoundResult check svc).up then svc.points else 0 := by
    intro svc
    simp only [svcRoundResult]
  have hle : ∀ (ss : List Service),
      (run_one_round_core ss check).2 ≤ (ss.map (fun s => s.points)).sum := by
    intro ss
    rw [run_one_round_core_eq]
    exact List.sum_le_sum (fun s _ => by
      rw [hpts s]
      by_cases h : (svcRoundResult check s).up <;> simp [h])
  refine ⟨?_, ?_, hpts, hle services, ?_⟩
  · rw [run_one_round_core_eq]
    simp only [List.map_map, Function.comp_def]
  · intro svc
    rw [hpts svc]
    by_cases h : (svcRoundResult check svc).up <;> simp [h]
  · intro n
    exact ⟨rfl, rfl, hle (SERVICES n)⟩

/-- Claim C4. Every configured service appears exactly once, in configuration
order, in every round's result list (the list is the map of the per-service
body over the configuration, so its length and id sequence match the
configuration), and a checker call that raises yields a down verdict with zero
points for that service. -/
theorem claim_C4_every_service :
    ∀ (services : List Service) (check : Service → Except String (Bool × String)),
      (run_one_round_core services check).1 = services.map (svcRoundResult check)
      ∧ (run_one_round_core services check).1.length = services.length
      ∧ ((run_one_round_core services check).1.map (fun r => r.service_id))
          = services.map (fun s => s.id)
      ∧ (∀ svc e, check svc = .error e →
          (svcRoundResult check svc).up = false
          ∧ (svcRoundResult check svc).points_earned = 0
          ∧ (svcRoundResult check svc).message = "Check exception: " ++ e) := by
  intro services check
  have h1 : (run_one_round_core services check).1
      = services.map (svcRoundResult check) := by
    rw [run_one_round_core_eq]
  refine ⟨h1, by rw [h1]; simp, by rw [h1]; simp [List.map_map, Function.comp, svcRoundResult], ?_⟩
  intro svc e he
  simp [svcRoundResult, he]

/-- A checker oracle whose call raises on every service
(models `checks.run_check` itself throwing). -/
def checkBoom : Service → Except String (Bool × String) := fun _ => .error "boom"

/-- A concrete service definition used to witness checker-exception handling. -/
def svcBoom : Service :=
  { id := "web", name := "HTTP Web Server", machine := "WEB01",
    host := "10.9.10.31", port := 80, points := 100, check_type := "http" }

/-- Witness for C4 at a concrete raising checker. -/
theorem claim_C4_witness :
    checkBoom svcBoom = .error "boom"
    ∧ ((svcRoundResult checkBoom svcBoom).up = false
        ∧ (svcRoundResult checkBoom svcBoom).points_earned = 0
        ∧ (svcRoundResult checkBoom svcBoom).message = "Check exception: " ++ "boom") :=
  ⟨rfl, (claim_C4_every_service [svcBoom] checkBoom).2.2.2 svcBoom "boom" rfl⟩

/-- A concrete, fully healthy network oracle used by witnesses. -/
def constEnv : NetEnv :=
  { tcp := fun _ _ => .ok,
    http := fun _ _ => .ok 200 (asciiBytes "<html>ok</html>"),
    ftp := fun _ _ => .ok "220 FTP ready" .ok,
    smtp := fun _ _ => .ok 220 (asciiBytes "220 mail.ludus.domain ESMTP") .accepted,
    banner := fun _ _ => .ok (asciiBytes "+OK POP3 ready"),
    mysql := fun _ _ => .ok ([0x4a, 0, 0, 0, 0x0a] ++ asciiBytes "5.7.0" ++ [0]),
    hasDnspython := false,
    resolve := fun _ _ => .ok ["10.9.10.31"],
    udp := fun _ _ _ => .ok [0xab, 0xcd, 0x81, 0x80, 0, 1, 0, 1, 0, 0, 0, 0] }

/-- Claim C2. The SMTP check reports up exactly when the server greets with
code 220 and the subsequent EHLO exchange is accepted (the `ehlo` call
returns); any other greeting code, and any SMTP-level or other exception
during the session, yields a down verdict. -/
theorem claim_C2_smtp :
    ∀ (env : NetEnv) (host : String) (port : Nat),
      (check_smtp env host port).1 = true ↔
        ∃ banner, env.smtp host port = SmtpConn.ok 220 banner SmtpEhlo.accepted := by
  intro env host port
  unfold check_smtp
  cases h : env.smtp host port with
  | ok code banner eh =>
    by_cases hc : code = 220
    · subst hc
      cases eh with
      | accepted => simp [smtpVerdict, h]
      | smtpErr s => simp [smtpVerdict, h]
      | otherErr s => simp [smtpVerdict, h]
    · simp [smtpVerdict, hc, h]
  | smtpErr s => simp [smtpVerdict, h]
  | otherErr s => simp [smtpVerdict, h]

/-- Witness for C2: a healthy SMTP conversation is reported up. -/
theorem claim_C2_witness :
    constEnv.smtp "10.9.10.61" 25
      = SmtpConn.ok 220 (asciiBytes "220 mail.ludus.domain ESMTP") SmtpEhlo.accepted
    ∧ (check_smtp constEnv "10.9.10.61" 25).1 = true :=
  ⟨rfl, (claim_C2_smtp constEnv "10.9.10.61" 25).mpr
    ⟨asciiBytes "220 mail.ludus.domain ESMTP", rfl⟩⟩

/-- The check types `run_check` dispatches on. -/
def knownCheckTypes : List String :=
  ["tcp", "http", "ftp", "smtp", "banner", "mysql", "dns"]

/-- Claim C8. For a service whose check type is none of the dispatched ones,
`run_check` returns a down verdict naming the unknown type; an exception
escaping the dispatched checker call is caught in the round loop and becomes
a down verdict whose message starts with "Check exception:", and the round
still produces one result per configured service. -/
theorem claim_C8_dispatch :
    (∀ (env : NetEnv) (svc : Service), svc.check_type ∉ knownCheckTypes →
      run_check env svc = (false, "Unknown check type: " ++ svc.check_type))
    ∧ (∀ (check : Service → Except String (Bool × String)) (svc : Service) (e : String),
        check svc = .error e →
        svcRoundResult check svc = SvcResult.mk svc.id false 0 ("Check exception: " ++ e))
    ∧ (∀ (services : List Service) (check : Service → Except String (Bool × String)),
        (run_one_round_core services check).1.length = services.length) := by
  refine ⟨?_, ?_, ?_⟩
  · intro env svc h
    simp only [knownCheckTypes, List.mem_cons, List.not_mem_nil, or_false, not_or] at h
    obtain ⟨h1, h2, h3, h4, h5, h6, h7⟩ := h
    simp [run_check, h1, h2, h3, h4, h5, h6, h7]
  · intro check svc e he
    simp [svcRoundResult, he]
  · intro services check
    rw [run_one_round_core_eq]
    simp

/-- A concrete service whose check type no dispatcher branch handles. -/
def svcUnknown : Service :=
  { id := "ssh", name := "SSH", machine := "DC01",
    host := "10.9.10.11", port := 22, points := 50, check_type := "ssh" }

/-- Witness for C8: the unknown type and the exception wrapper at concrete
inputs. -/
theorem claim_C8_witness :
    (svcUnknown.check_type ∉ knownCheckTypes
      ∧ run_check constEnv svcUnknown
          = (false, "Unknown check type: " ++ svcUnknown.check_type))
    ∧ (checkBoom svcUnknown = .error "boom"
      ∧ svcRoundResult checkBoom svcUnknown
          = SvcResult.mk svcUnknown.id false 0 ("Check exception: " ++ "boom")) :=
  ⟨⟨by decide, claim_C8_dispatch.1 constEnv svcUnknown (by decide)⟩,
    ⟨rfl, claim_C8_dispatch.2.1 checkBoom svcUnknown "boom" rfl⟩⟩

/-- Claim C5. The MySQL handshake parser: fewer than 5 bytes is down with
"Incomplete handshake"; protocol byte 0x0a at offset 4 is up, with the
version string running from offset 5 to the first null byte at or after
offset 5 (no null: still up with the fallback message); 0xff is down with the
embedded error text (bytes from offset 7, decoded with replacement, first 60
characters); any other protocol byte is up with the raw byte in lowercase
hex. `check_mysql` applies this parser to whatever bytes `recv` produced. -/
theorem claim_C5_mysql :
    (∀ (env : NetEnv) (host : String) (port : Nat) (data : List Nat),
      env.mysql host port = .ok data →
      check_mysql env host port = mysqlParseHandshake data)
    ∧ ∀ data : List Nat,
      (data.length < 5 →
        mysqlParseHandshake data = (false, "Incomplete handshake"))
      ∧ (5 ≤ data.length → data.getD 4 0 = 0x0a →
          ((data.drop 5).contains 0 = true →
            mysqlParseHandshake data = (true, "MySQL/MariaDB " ++
              String.mk (asciiDecodeReplace
                ((data.drop 5).takeWhile (fun b => b != 0)))))
          ∧ ((data.drop 5).contains 0 = false →
            mysqlParseHandshake data
              = (true, "MySQL handshake OK (version unreadable)")))
      ∧ (5 ≤ data.length → data.getD 4 0 = 0xff →
          mysqlParseHandshake data = (false, "MySQL error: " ++
            strTake 60 (String.mk (utf8DecodeReplace (data.drop 7)))))
      ∧ (5 ≤ data.length → data.getD 4 0 ≠ 0x0a → data.getD 4 0 ≠ 0xff →
          mysqlParseHandshake data = (true, "DB port open (proto byte=0x" ++
            hexByte2 (data.getD 4 0) ++ ")")) := by
  constructor
  · intro env host port data h
    unfold check_mysql
    rw [h]
  intro data
  refine ⟨?_, ?_, ?_, ?_⟩
  · intro hlen
    simp [mysqlParseHandshake, hlen]
  · intro hlen hp
    have hnlt : ¬data.length < 5 := by omega
    simp only [List.getD_eq_getElem?_getD] at hp
    constructor
    · intro hz
      have hsome : byteIndexOfZero (data.drop 5) ≠ none := by
        intro hnone
        rw [byteIndexOfZero_eq_none] at hnone
        rw [hz] at hnone
        simp at hnone
      obtain ⟨k, hk⟩ := Option.ne_none_iff_exists'.mp hsome
      simp [mysqlParseHandshake, hnlt, hp, hk, byteIndexOfZero_take (data.drop 5) k hk]
    · intro hz
      have hnone : byteIndexOfZero (data.drop 5) = none :=
        (byteIndexOfZero_eq_none (data.drop 5)).mpr hz
      simp [mysqlParseHandshake, hnlt, hp, hnone]
  · intro hlen hp
    have hnlt : ¬data.length < 5 := by omega
    simp only [List.getD_eq_getElem?_getD] at hp
    simp [mysqlParseHandshake, hnlt, hp]
  · intro hlen hpa hpf
    have hnlt : ¬data.length < 5 := by omega
    simp only [List.getD_eq_getElem?_getD] at hpa hpf
    simp [mysqlParseHandshake, hnlt, hpa, hpf]

/-- A concrete MySQL 5.7.0 greeting packet (3-byte length, sequence byte,
protocol 0x0a, null-terminated version, trailing handshake bytes). -/
def mysqlGreeting570 : List Nat :=
  [0x4a, 0, 0, 0, 0x0a] ++ asciiBytes "5.7.0" ++ [0] ++ [0x2f, 0x01, 0x02]

/-- Witness for C5: the 5.7.0 greeting parses as up with the version in the
message, and the parser matches `check_mysql` on the oracle's bytes. -/
theorem claim_C5_witness :
    (5 ≤ mysqlGreeting570.length ∧ mysqlGreeting570.getD 4 0 = 0x0a
      ∧ (mysqlGreeting570.drop 5).contains 0 = true)
    ∧ mysqlParseHandshake mysqlGreeting570 = (true, "MySQL/MariaDB " ++
        String.mk (asciiDecodeReplace
          ((mysqlGreeting570.drop 5).takeWhile (fun b => b != 0)))) :=
  ⟨⟨by decide, by decide, by decide⟩,
    ((claim_C5_mysql.2 mysqlGreeting570).2.1 (by decide) (by decide)).1 (by decide)⟩

/-- Claim C6. The raw-UDP DNS fallback sends its hand-built packet to port 53
and judges only the response header: shorter than 12 bytes is down with
"Short DNS response"; otherwise the return code is the low 4 bits of byte 3,
with code 0 up (NOERROR) and any nonzero code down with the code in the
message. The verdict is the same for every configured expected IP — the
fallback never checks it. -/
theorem claim_C6_dns_raw :
    ∀ (env : NetEnv) (host query : String) (eip : Option String),
      (∀ eip2, dns_raw_udp env host query eip = dns_raw_udp env host query eip2)
      ∧ (dnsLabelsOk query = true →
        ∀ resp, env.udp host 53 (dnsPacket query) = .ok resp →
          (resp.length < 12 →
            dns_raw_udp env host query eip = (false, "Short DNS response"))
          ∧ (12 ≤ resp.length →
              ((dns_raw_udp env host query eip).1 = true ↔ resp.getD 3 0 % 16 = 0)
              ∧ (resp.getD 3 0 % 16 = 0 →
                  dns_raw_udp env host query eip
                    = (true, "DNS query OK (NOERROR) for " ++ query))
              ∧ (resp.getD 3 0 % 16 ≠ 0 →
                  dns_raw_udp env host query eip
                    = (false, "DNS RCODE " ++ toString (resp.getD 3 0 % 16)
                        ++ " for " ++ query)))) := by
  intro env host query eip
  constructor
  · intro eip2
    rfl
  intro hok resp hresp
  have hok' : (!dnsLabelsOk query) = false := by rw [hok]; rfl
  constructor
  · intro hshort
    simp [dns_raw_udp, hok', hresp, hshort]
  intro hlong
  have hnlt : ¬resp.length < 12 := by omega
  refine ⟨?_, ?_, ?_⟩
  · simp only [List.getD_eq_getElem?_getD]
    by_cases hz : resp[3]?.getD 0 % 16 = 0
    · simp [dns_raw_udp, hok', hresp, hnlt, hz]
    · simp [dns_raw_udp, hok', hresp, hnlt, hz]
  · intro hz
    simp only [List.getD_eq_getElem?_getD] at hz ⊢
    simp [dns_raw_udp, hok', hresp, hnlt, hz]
  · intro hz
    simp only [List.getD_eq_getElem?_getD] at hz ⊢
    simp [dns_raw_udp, hok', hresp, hnlt, hz]

/-- Witness for C6: a NOERROR response from the oracle is reported up. -/
theorem claim_C6_witness :
    (dnsLabelsOk "web.ludus.domain" = true
      ∧ constEnv.udp "10.9.10.71" 53 (dnsPacket "web.ludus.domain")
          = .ok [0xab, 0xcd, 0x81, 0x80, 0, 1, 0, 1, 0, 0, 0, 0])
    ∧ dns_raw_udp constEnv "10.9.10.71" "web.ludus.domain" (some "10.9.10.31")
        = (true, "DNS query OK (NOERROR) for " ++ "web.ludus.domain") :=
  ⟨⟨by decide, rfl⟩,
    (((claim_C6_dns_raw constEnv "10.9.10.71" "web.ludus.domain"
        (some "10.9.10.31")).2 (by decide)
      [0xab, 0xcd, 0x81, 0x80, 0, 1, 0, 1, 0, 0, 0, 0] rfl).2
        (by decide)).2.1 (by decide)⟩

/-- Claim C7. With a configured expected substring, the banner check is up
exactly when the substring occurs in the received banner decoded with
replacement of undecodable bytes (and stripped, as the code does); in
particular "+OK" against "+OK POP3 ready" is up, and against "-ERR" it is
down with a message naming the missing substring. -/
theorem claim_C7_banner :
    ∀ (env : NetEnv) (host : String) (port : Nat) (e : String) (raw : List Nat),
      (env.banner host port = .ok raw →
        ((check_banner env host port (some e)).1 = true ↔
          containsSub (bannerDecode raw).data e.data = true))
      ∧ bannerVerdict (asciiBytes "+OK POP3 ready") (some "+OK")
          = (true, "Banner: +OK POP3 ready")
      ∧ bannerVerdict (asciiBytes "-ERR") (some "+OK")
          = (false, "Banner missing " ++ squote ++ "+OK" ++ squote ++ ": -ERR") := by
  intro env host port e raw
  refine ⟨?_, by decide, by decide⟩
  intro h
  unfold check_banner
  rw [h]
  unfold bannerVerdict
  by_cases he : e.isEmpty
  · have he' : e = "" := (String.isEmpty_iff e).mp he
    subst he'
    simp [optTruthy, containsSub_nil]
  · have ht : optTruthy (some e) = true := by simp [optTruthy, he]
    by_cases hc : containsSub (bannerDecode raw).data e.data = true
    · simp [ht, hc]
    · simp [ht, hc]

/-- Witness for C7: the POP3 greeting on the oracle is reported up. -/
theorem claim_C7_witness :
    constEnv.banner "10.9.10.61" 110 = .ok (asciiBytes "+OK POP3 ready")
    ∧ (check_banner constEnv "10.9.10.61" 110 (some "+OK")).1 = true :=
  ⟨rfl,
    ((claim_C7_banner constEnv "10.9.10.61" 110 "+OK"
      (asciiBytes "+OK POP3 ready")).1 rfl).mpr (by decide)⟩

/-- A concrete service for the persistence-failure scenario. -/
def svcSmb : Service :=
  { id := "smb", name := "SMB File Share", machine := "FILESVR",
    host := "10.9.10.51", port := 445, points := 50, check_type := "tcp" }

/-- A round whose checks all succeed but whose `save_round` call raises. -/
def roundEnvBadSave : RoundEnv :=
  { check := fun _ => .ok (true, "Port open"),
    save := fun _ _ _ => .error "database is locked",
    now := "2026-10-12 10:00:00" }

/-- Claim C1, counterexample. With one healthy service and a raising
`save_round`, the round computes a nonempty result list worth 50 points, yet
the published shared state still has no results, score 0, and no last-check
time: the in-memory snapshot is NOT published when persistence fails,
contradicting the claim. -/
theorem claim_C1_counterexample :
    roundEnvBadSave.save (run_one_round_core [svcSmb] roundEnvBadSave.check).1
        (run_one_round_core [svcSmb] roundEnvBadSave.check).2 750
      = .error "database is locked"
    ∧ (run_one_round_core [svcSmb] roundEnvBadSave.check).2 = 50
    ∧ (run_one_round_core [svcSmb] roundEnvBadSave.check).1 ≠ []
    ∧ (scheduler_round [svcSmb] 750 roundEnvBadSave initState).current_results = []
    ∧ (scheduler_round [svcSmb] 750 roundEnvBadSave initState).round_score = 0
    ∧ (scheduler_round [svcSmb] 750 roundEnvBadSave initState).last_check_time = none := by
  refine ⟨rfl, rfl, by decide, rfl, rfl, rfl⟩

/-- Claim C1, amended. If `save_round` raises, the exception propagates out of
`_run_one_round` before the publish block, so the shared state keeps its
previous snapshot (last check time, round score, per-service results all
unchanged); the scheduler loop catches the exception (logging it), clears the
in-progress flag, and continues into the next round. -/
theorem claim_C1_persistence_failure :
    ∀ (services : List Service) (maxScore : Nat) (re : RoundEnv)
      (st : EngineState) (e : String),
      re.save (run_one_round_core services re.check).1
          (run_one_round_core services re.check).2 maxScore = .error e →
      scheduler_round services maxScore re st = { st with is_checking := false }
      ∧ ∀ rounds, scheduler_loop services maxScore (re :: rounds) st
          = scheduler_loop services maxScore rounds
              { st with is_checking := false, next_check_in := 0 } := by
  intro services maxScore re st e h
  have hstep : scheduler_round services maxScore re st
      = { st with is_checking := false } := by
    unfold scheduler_round run_one_round_app
    simp only [h]
  refine ⟨hstep, ?_⟩
  intro rounds
  unfold scheduler_loop
  rw [List.foldl_cons, hstep]

/-- Witness for the amended C1 at the concrete failing round. -/
theorem claim_C1_witness :
    roundEnvBadSave.save (run_one_round_core [svcSmb] roundEnvBadSave.check).1
        (run_one_round_core [svcSmb] roundEnvBadSave.check).2 750
      = .error "database is locked"
    ∧ scheduler_round [svcSmb] 750 roundEnvBadSave initState
        = { initState with is_checking := false } :=
  ⟨rfl, (claim_C1_persistence_failure [svcSmb] 750 roundEnvBadSave initState
    "database is locked" rfl).1⟩

/-- Claim C9. Over the append-ordered round log, `get_recent_rounds(limit)` is
the reversal of the last `limit` rounds (newest first), `get_score_history
(limit)` is the score projection of the last `limit` rounds in log order
(oldest first), and the history equals the reversed projection of the recent
rounds for the same limit. -/
theorem claim_C9_round_queries :
    ∀ (log : List RoundRow) (limit : Nat),
      get_recent_rounds log limit = (log.drop (log.length - limit)).reverse
      ∧ get_score_history log limit
          = (log.drop (log.length - limit)).map scoreHistoryRow
      ∧ get_score_history log limit
          = ((get_recent_rounds log limit).map scoreHistoryRow).reverse := by
  intro log limit
  have h1 : get_recent_rounds log limit = (log.drop (log.length - limit)).reverse := by
    have h := List.rtake_eq_reverse_take_reverse (l := log) (n := limit)
    unfold List.rtake at h
    unfold get_recent_rounds
    rw [h, List.reverse_reverse]
  refine ⟨h1, ?_, rfl⟩
  show (((log.reverse).take limit).map scoreHistoryRow).reverse
      = (log.drop (log.length - limit)).map scoreHistoryRow
  have h2 : (log.reverse).take limit = get_recent_rounds log limit := rfl
  rw [h2, h1, List.map_reverse, List.reverse_reverse]

/-- Claim C10. Two DNS services differing only in their configured port get
identical verdicts: `run_check` never passes the port to the DNS check, and
the raw-UDP fallback consults the network only through queries sent to
port 53, so any two environments agreeing on port 53 yield the same result. -/
theorem claim_C10_dns_port_independence :
    (∀ (svc : Service) (env : NetEnv) (p : Nat), svc.check_type = "dns" →
      run_check env { svc with port := p } = run_check env svc)
    ∧ (∀ (e1 e2 : NetEnv) (host query : String) (eip : Option String),
        (∀ pkt, e1.udp host 53 pkt = e2.udp host 53 pkt) →
        dns_raw_udp e1 host query eip = dns_raw_udp e2 host query eip) := by
  constructor
  · intro svc env p h
    obtain ⟨i, nm, mc, hs, pt, pts, ct, be, dq, de⟩ := svc
    simp only at h
    subst h
    rfl
  · intro e1 e2 host query eip hu
    unfold dns_raw_udp
    rw [hu (dnsPacket query)]

/-- The DNS service from the configuration at base net 10.9.10. -/
def svcDns : Service :=
  { id := "dns", name := "DNS Server", machine := "DNS01",
    host := "10.9.10.71", port := 53, points := 100, check_type := "dns",
    dns_query := some "web.ludus.domain", dns_expected_ip := some "10.9.10.31" }

/-- Witness for C10: moving the DNS service to port 5353 changes nothing. -/
theorem claim_C10_witness :
    svcDns.check_type = "dns"
    ∧ run_check constEnv { svcDns with port := 5353 } = run_check constEnv svcDns :=
  ⟨rfl, claim_C10_dns_port_independence.1 svcDns constEnv 5353 rfl⟩

end ScoringEngine
